import Mathlib

/-!
Verification of the carbon-emissions analytics engine
(`src/backend/app/ml/models/{optimization, scenario_modeling,
anomaly_detection, forecasting}.py`) against its natural-language
specification.

Conventions of the shallow embedding:
* Python floats are modelled as `ℚ` so that every definition is executable
  and every concrete evaluation is exact.  Where numpy produces `inf`/`nan`
  (division by zero), the embedding either routes the case through
  `Except`/`Option` (when Python raises) or the theorems carry hypotheses
  keeping the inputs away from the degenerate case; each such spot is
  marked with a comment.
* `datetime.now().year` is threaded explicitly as a `currentYear : ℤ`
  parameter.
* Calls into third-party fitted estimators (sklearn's IsolationForest,
  scipy's `linprog`/`differential_evolution` search loop, statsmodels /
  prophet fitting) are modelled as explicit function parameters or, for
  `differential_evolution`, as exact minimisation of the very objective
  function the source passes to the solver, over the binarised selection
  vectors the source decodes.  Everything else (objective functions,
  thresholds, greedy loops, projections, validation, result assembly) is
  translated directly from the Python source.
-/

deriving instance DecidableEq for Except

namespace CarbonIntel

/-- Running prefix sums: `runningSum [a, b, c] = [a, a+b, a+b+c]`.
Mirrors the `cumulative += annual` accumulation loops in
`scenario_modeling.py` (lines 158-173 and 297-301). -/
def runningSum (xs : List ℚ) : List ℚ :=
  (xs.foldl (fun (acc : ℚ × List ℚ) x => (acc.1 + x, acc.2 ++ [acc.1 + x])) (0, [])).2

/-- Arithmetic mean, `np.mean`; numpy returns `nan` on an empty array, the
claims only ever apply this to non-empty lists (`ℚ` division by zero gives
`0` instead). -/
def qmean (xs : List ℚ) : ℚ := xs.sum / (xs.length : ℚ)

/-- Index of the first maximal element, `np.argmax` (first occurrence wins). -/
def argmaxIdx (xs : List ℚ) : ℕ :=
  (xs.foldl
    (fun (acc : ℕ × ℕ × Option ℚ) x =>
      match acc.2.2 with
      | none => (acc.1 + 1, acc.1, some x)
      | some b => if b < x then (acc.1 + 1, acc.1, some x) else (acc.1 + 1, acc.2.1, some b))
    (0, 0, none)).2.1

/-- Stable insert of an index into an ascending run, used to model
`np.argsort` (numpy uses insertion sort for the small arrays appearing
here, which is stable ascending). -/
def insertAsc (key : ℕ → ℚ) (i : ℕ) : List ℕ → List ℕ
  | [] => [i]
  | j :: js => if key i < key j then i :: j :: js else j :: insertAsc key i js

/-- Stable ascending argsort of `[0, …, n-1]` by `key`, i.e. `np.argsort`. -/
def argsortAsc (key : ℕ → ℚ) (n : ℕ) : List ℕ :=
  (List.range n).foldl (fun acc i => insertAsc key i acc) []

end CarbonIntel

namespace CarbonIntel.Opt

/-! ## `optimization.py` — `CarbonReductionOptimizer` -/

/-- One entry of the `initiatives: List[Dict]` input.  `risk_score` is
optional because `multi_objective_optimization` reads it with
`init.get('risk_score', 0.5)` (line 231). -/
structure Initiative where
  name : String
  cost : ℚ
  co2_reduction : ℚ
  risk_score : Option ℚ
  deriving Repr, DecidableEq

/-- The optimizer state set by `define_reduction_problem`
(lines 32-40: `self.initiatives/budget_constraint/target_reduction`). -/
structure ProblemDef where
  initiatives : List Initiative
  budget_constraint : ℚ
  target_reduction : ℚ
  deriving Repr, DecidableEq

def ProblemDef.costs (p : ProblemDef) : List ℚ := p.initiatives.map (·.cost)

def ProblemDef.impacts (p : ProblemDef) : List ℚ := p.initiatives.map (·.co2_reduction)

def ProblemDef.numInitiatives (p : ProblemDef) : ℕ := p.initiatives.length

/-- Dict returned by `define_reduction_problem` (lines 46-51). -/
structure ProblemSummary where
  num_initiatives : ℕ
  total_potential_reduction : ℚ
  total_cost_if_all : ℚ
  cost_effectiveness_ratios : List ℚ
  deriving Repr, DecidableEq

/-- `define_reduction_problem` (optimization.py lines 18-55).  The body
performs NO validation of costs, reductions, budget or target: it stores
the inputs and returns the summary dict.  The `try/except` can only fire
on a malformed dict (missing `cost`/`co2_reduction`/`name` key), which the
typed `Initiative` structure rules out, so the embedding is total.
Ratios `impacts / costs` (line 50): for `cost = 0` numpy yields `±inf/nan`
with a warning rather than raising; `ℚ` yields `0`.  No theorem below
evaluates a ratio at a zero cost. -/
def define_reduction_problem (initiatives : List Initiative)
    (budget_constraint target_reduction : ℚ) : ProblemDef × ProblemSummary :=
  let p : ProblemDef := ⟨initiatives, budget_constraint, target_reduction⟩
  (p, ⟨initiatives.length, p.impacts.sum, p.costs.sum,
       initiatives.map (fun i => i.co2_reduction / i.cost)⟩)

/-- One element of `selected_initiatives` in the greedy result
(lines 72-78). -/
structure SelectedInitiative where
  index : ℕ
  name : String
  cost : ℚ
  reduction : ℚ
  ratio : ℚ
  deriving Repr, DecidableEq

/-- Greedy result dict (lines 82-90). -/
structure CEResult where
  method : String
  selected_initiatives : List SelectedInitiative
  total_cost : ℚ
  total_reduction : ℚ
  budget_utilization : ℚ
  target_achievement : ℚ
  average_cost_per_tonne : ℚ
  deriving Repr, DecidableEq

/-- The greedy accumulation loop of `cost_effectiveness_optimization`
(lines 70-80): walk the indices in descending-ratio order, accept an
initiative when it still fits in the budget. -/
def ceGreedyStep (p : ProblemDef)
    (acc : List SelectedInitiative × ℚ × ℚ) (idx : ℕ) :
    List SelectedInitiative × ℚ × ℚ :=
  match p.initiatives[idx]? with
  | none => acc
  | some init =>
      if acc.2.1 + init.cost ≤ p.budget_constraint then
        (acc.1 ++ [⟨idx, init.name, init.cost, init.co2_reduction,
                    init.co2_reduction / init.cost⟩],
         acc.2.1 + init.cost, acc.2.2 + init.co2_reduction)
      else acc

/-- `cost_effectiveness_optimization` (optimization.py lines 57-96).
`np.argsort(ratios)[::-1]` (line 64) is embedded as the reverse of a
stable ascending argsort: numpy's introsort falls back to insertion sort
(stable) on the small arrays involved, so ties in the ratio are broken,
after the `[::-1]` reversal, toward the larger index. -/
def cost_effectiveness_optimization (p : ProblemDef) : CEResult :=
  let ratios := fun i : ℕ =>
    ((p.initiatives[i]?).map (fun init => init.co2_reduction / init.cost)).getD 0
  let sorted_indices := (argsortAsc ratios p.numInitiatives).reverse
  let sel := sorted_indices.foldl (ceGreedyStep p) ([], 0, 0)
  { method := "cost_effectiveness"
    selected_initiatives := sel.1
    total_cost := sel.2.1
    total_reduction := sel.2.2
    budget_utilization := sel.2.1 / p.budget_constraint
    target_achievement := sel.2.2 / p.target_reduction
    average_cost_per_tonne := if 0 < sel.2.2 then sel.2.1 / sel.2.2 else 0 }

/-- Dot product `np.sum(selection * values)` of a binary selection with a
value vector. -/
def selDot (sel : List Bool) (vals : List ℚ) : ℚ :=
  ((sel.zip vals).map (fun sv => if sv.1 then sv.2 else 0)).sum

/-- The constraints `linear_programming_optimization` hands to
`scipy.optimize.linprog` (lines 105-115): `0 ≤ x ≤ 1` per initiative and
`Σ cost·x ≤ budget`.  `linprog` guarantees these hold of any solution it
reports as a success. -/
def lpFeasible (p : ProblemDef) (x : List ℚ) : Prop :=
  x.length = p.numInitiatives ∧ (∀ xi ∈ x, 0 ≤ xi ∧ xi ≤ 1) ∧
    ((x.zip p.costs).map (fun v => v.1 * v.2)).sum ≤ p.budget_constraint

/-- Fractional dot product for the LP result. -/
def fracDot (x : List ℚ) (vals : List ℚ) : ℚ :=
  ((x.zip vals).map (fun v => v.1 * v.2)).sum

/-- LP result dict (lines 134-150); on solver failure the dict carries no
selection (modelled by `success := false` and zeroed metrics). -/
structure LPResult where
  method : String
  success : Bool
  total_cost : ℚ
  total_reduction : ℚ
  budget_utilization : ℚ
  target_achievement : ℚ
  deriving Repr, DecidableEq

/-- `linear_programming_optimization` (lines 98-156), parameterised by the
solver outcome: `some x` is a solution vector reported by `linprog` with
`result.success` (`x` satisfying `lpFeasible` is what the solver
guarantees), `none` is solver failure (lines 144-150). -/
def linear_programming_optimization (p : ProblemDef) (sol : Option (List ℚ)) :
    LPResult :=
  match sol with
  | some x =>
      let total_cost := fracDot x p.costs
      let total_reduction := fracDot x p.impacts
      { method := "linear_programming", success := true
        total_cost := total_cost, total_reduction := total_reduction
        budget_utilization := total_cost / p.budget_constraint
        target_achievement := total_reduction / p.target_reduction }
  | none =>
      { method := "linear_programming", success := false
        total_cost := 0, total_reduction := 0
        budget_utilization := 0, target_achievement := 0 }

/-- The objective function defined inside `genetic_algorithm_optimization`
(lines 161-174): maximise reduction, with a finite linear penalty
`1000 * (total_cost - budget)` for exceeding the budget. -/
def ga_objective (p : ProblemDef) (sel : List Bool) : ℚ :=
  let total_cost := selDot sel p.costs
  let total_reduction := selDot sel p.impacts
  if p.budget_constraint < total_cost then
    -total_reduction + 1000 * (total_cost - p.budget_constraint)
  else
    -total_reduction

/-- All binary selection vectors of length `n` (the binarised search space
`(x > 0.5).astype(int)` of `differential_evolution`, lines 164 and 190). -/
def allSelections : ℕ → List (List Bool)
  | 0 => [[]]
  | n + 1 => (allSelections n).map (false :: ·) ++ (allSelections n).map (true :: ·)

/-- First strict minimiser of `f` over `init :: rest`. -/
def argminBy (f : List Bool → ℚ) (init : List Bool) (rest : List (List Bool)) :
    List Bool :=
  rest.foldl (fun best s => if f s < f best then s else best) init

/-- The selection an exact run of `differential_evolution` decodes to:
the binary vector minimising the source's objective (the stochastic search
is modelled as attaining the optimum of the objective it is given). -/
def ga_argmin (f : List Bool → ℚ) (n : ℕ) : List Bool :=
  match allSelections n with
  | [] => []
  | s :: ss => argminBy f s ss

/-- GA / multi-objective result dict (lines 204-213 resp. 288-298). -/
structure GAResult where
  method : String
  success : Bool
  selected_indices : List ℕ
  total_cost : ℚ
  total_reduction : ℚ
  budget_utilization : ℚ
  target_achievement : ℚ
  deriving Repr, DecidableEq

/-- Assembles the success-branch result dict of
`genetic_algorithm_optimization` (lines 188-213) from the decoded binary
selection.  Note the crucial point for the budget invariant: `success` is
the solver's convergence flag; the code never re-checks
`total_cost ≤ budget` here. -/
def gaResultOf (p : ProblemDef) (method : String) (sel : List Bool) : GAResult :=
  let total_cost := selDot sel p.costs
  let total_reduction := selDot sel p.impacts
  { method := method, success := true
    selected_indices := ((sel.enum.filter (·.2)).map (·.1))
    total_cost := total_cost, total_reduction := total_reduction
    budget_utilization := total_cost / p.budget_constraint
    target_achievement := total_reduction / p.target_reduction }

/-- `genetic_algorithm_optimization` (lines 158-225) with
`differential_evolution` modelled as exact minimisation of
`ga_objective` over binary selections. -/
def genetic_algorithm_optimization (p : ProblemDef) : GAResult :=
  gaResultOf p "genetic_algorithm" (ga_argmin (ga_objective p) p.numInitiatives)

/-- `risks = np.array([init.get('risk_score', 0.5) ...])` (line 231). -/
def ProblemDef.risks (p : ProblemDef) : List ℚ :=
  p.initiatives.map (fun i => i.risk_score.getD (1/2))

/-- The `multi_objective` function (lines 233-260): a hard `1e6` value for
any over-budget selection, otherwise the weighted normalised objective
`-(0.6·red/Σred) + 0.3·cost/budget + 0.1·risk/n`.  The normalisations
divide by `Σ impacts` and `len(initiatives)`; numpy returns `nan` when
those are zero (empty or all-zero-impact catalogs), `ℚ` returns `0` —
the results below assume `0 < Σ impacts`, which keeps the embedding on
the faithful side. -/
def mo_objective (p : ProblemDef) (sel : List Bool) : ℚ :=
  let total_cost := selDot sel p.costs
  let total_reduction := selDot sel p.impacts
  let total_risk := selDot sel p.risks
  if p.budget_constraint < total_cost then 1000000
  else
    -(6/10 * (total_reduction / p.impacts.sum))
      + 3/10 * (total_cost / p.budget_constraint)
      + 1/10 * (total_risk / (p.numInitiatives : ℚ))

/-- `multi_objective_optimization` (lines 227-310), again with the
evolutionary search modelled as exact minimisation of the source's
objective. -/
def multi_objective_optimization (p : ProblemDef) : GAResult :=
  gaResultOf p "multi_objective" (ga_argmin (mo_objective p) p.numInitiatives)

end CarbonIntel.Opt

namespace CarbonIntel.Scen

/-! ## `scenario_modeling.py` — `CarbonScenarioModeler` -/

/-- The `company_data: Dict` input of `create_baseline_scenario`.  Fields
are optional because the source reads every one with
`company_data.get(key, default)` (lines 26-31). -/
structure CompanyData where
  annual_emissions : Option ℚ
  emission_growth_rate : Option ℚ
  business_growth_rate : Option ℚ
  natural_efficiency : Option ℚ
  scenario_timeline : Option ℕ
  deriving Repr, DecidableEq

/-- The `parameters` sub-dict of a scenario (lines 25-30). -/
structure BaselineParams where
  current_emissions : ℚ
  historical_growth_rate : ℚ
  business_growth_rate : ℚ
  efficiency_improvement : ℚ
  deriving Repr, DecidableEq

/-- The per-year lists of a `projections` dict (lines 151-156). -/
structure ProjectionSeries where
  years : List ℤ
  emissions : List ℚ
  cumulative_emissions : List ℚ
  emission_intensity : List ℚ
  deriving Repr, DecidableEq

/-- The `projections['summary']` dict of the baseline projection
(lines 177-187). -/
structure ProjectionSummary where
  total_cumulative : ℚ
  final_year_emissions : ℚ
  average_annual_emissions : ℚ
  emission_change_total : ℚ
  peak_year : ℕ
  peak_emissions : ℚ
  deriving Repr, DecidableEq

/-- Errors raised inside `CarbonScenarioModeler` (each `except` block logs
and re-raises, so exceptions propagate to the caller):
* `noBaseline` — `ValueError("Baseline scenario must be created first")`
  (lines 54-55, 92-93);
* `targetYearNotInFuture` — `ValueError("Target year must be in the
  future")` (lines 98-99);
* `zeroDivision` — Python `ZeroDivisionError` from
  `emission_change_total`, which divides by `emissions[0]` (lines 181-184
  and 308-311);
* `missingProjectTargetScenario` — Python `AttributeError`: line 126 calls
  `self._project_target_scenario(scenario)`, but no such method is defined
  anywhere in the repository (the patch script
  `fix_remaining_issues.py` adds only `_analyze_target_feasibility`). -/
inductive ScenarioError where
  | noBaseline
  | targetYearNotInFuture
  | zeroDivision
  | missingProjectTargetScenario
  deriving Repr, DecidableEq

/-- The per-year emissions values of `_project_emissions` (lines 161-166):
`current` at year 0, `current * (1 + net_growth_rate)^year` afterwards,
with `net_growth_rate = business_growth_rate - efficiency_improvement`
(line 149). -/
def baselineEmissions (params : BaselineParams) (timeline_years : ℕ) : List ℚ :=
  let net := params.business_growth_rate - params.efficiency_improvement
  (List.range (timeline_years + 1)).map (fun year =>
    if year = 0 then params.current_emissions
    else params.current_emissions * (1 + net) ^ year)

/-- The loop of `_project_emissions` (lines 158-174), translated
functionally: the cumulative list is the running sum of the emissions
list, and the intensity at year `y` divides by the business-growth factor
`(1 + growth)^(y+1)` (the source multiplies `business_growth` before
using it, lines 168-169). -/
def projectEmissionsSeries (params : BaselineParams) (timeline_years : ℕ)
    (currentYear : ℤ) : ProjectionSeries :=
  let emissions := baselineEmissions params timeline_years
  { years := (List.range (timeline_years + 1)).map (fun y => currentYear + y)
    emissions := emissions
    cumulative_emissions := runningSum emissions
    emission_intensity := (List.range (timeline_years + 1)).zip emissions |>.map
      (fun p => p.2 / (1 + params.business_growth_rate) ^ (p.1 + 1)) }

/-- Summary statistics of a projected emissions list (lines 177-187).
`emission_change_total` divides by `emissions[0]`; when that is zero
Python raises `ZeroDivisionError`, hence the `Except`. -/
def projectionSummary (emissions : List ℚ) (cumulative : ℚ) :
    Except ScenarioError ProjectionSummary :=
  let first := emissions.headI
  if first = 0 then .error .zeroDivision
  else .ok
    { total_cumulative := cumulative
      final_year_emissions := emissions.getLastD 0
      average_annual_emissions := qmean emissions
      emission_change_total := (emissions.getLastD 0 - first) / first * 100
      peak_year := argmaxIdx emissions
      peak_emissions := emissions.foldl max emissions.headI }

/-- Full `projections` dict of the baseline scenario. -/
structure BaselineProjections where
  series : ProjectionSeries
  summary : ProjectionSummary
  deriving Repr, DecidableEq

/-- `_project_emissions` (scenario_modeling.py lines 138-193). -/
def project_emissions (params : BaselineParams) (timeline_years : ℕ)
    (currentYear : ℤ) : Except ScenarioError BaselineProjections := do
  let series := projectEmissionsSeries params timeline_years currentYear
  let summary ← projectionSummary series.emissions (series.cumulative_emissions.getLastD 0)
  return ⟨series, summary⟩

/-- A baseline scenario (lines 21-37): parameters, horizon, projections. -/
structure Baseline where
  params : BaselineParams
  timeline_years : ℕ
  projections : BaselineProjections
  deriving Repr, DecidableEq

/-- `create_baseline_scenario` (lines 18-44).  `datetime.now().year` is
the explicit `currentYear`. -/
def create_baseline_scenario (company_data : CompanyData) (currentYear : ℤ) :
    Except ScenarioError Baseline := do
  let params : BaselineParams :=
    { current_emissions := company_data.annual_emissions.getD 0
      historical_growth_rate := company_data.emission_growth_rate.getD (2/100)
      business_growth_rate := company_data.business_growth_rate.getD (5/100)
      efficiency_improvement := company_data.natural_efficiency.getD (1/100) }
  let timeline_years := company_data.scenario_timeline.getD 10
  let projections ← project_emissions params timeline_years currentYear
  return ⟨params, timeline_years, projections⟩

/-- The modeler's state that the scenario-creation methods read:
`self.baseline_scenario` plus the ambient current year.  The
`self.scenarios` registry (line 77) only stores returned scenarios and is
read by no claim, so it is not modelled. -/
structure ModelerState where
  baseline : Option Baseline
  currentYear : ℤ

/-- A caller-supplied intervention dict.  Every field is optional because
`_validate_interventions` reads each with `intervention.get(key, default)`
(lines 201-214). -/
structure InterventionInput where
  name : Option String
  type : Option String
  start_year : Option ℤ
  implementation_duration : Option ℤ
  annual_reduction : Option ℚ
  one_time_reduction : Option ℚ
  cost : Option ℚ
  annual_savings : Option ℚ
  effectiveness_decay : Option ℚ
  scope : Option String
  uncertainty : Option ℚ
  deriving Repr, DecidableEq

/-- A validated intervention as produced by `_validate_interventions`
(the `dependencies` list defaults to `[]` and is never read afterwards;
it is not modelled). -/
structure Intervention where
  name : String
  type : String
  start_year : ℤ
  -- Implementation durations are Python ints in the source (default 1,
  -- catalog values 1-2); a non-integral duration would make the decay
  -- exponent `** years_post_impl` a real power, which no claim exercises.
  implementation_duration : ℤ
  annual_reduction : ℚ
  one_time_reduction : ℚ
  cost : ℚ
  annual_savings : ℚ
  effectiveness_decay : ℚ
  scope : String
  uncertainty : ℚ
  deriving Repr, DecidableEq

/-- Validation of a single intervention dict (lines 201-219): defaults for
missing keys, then range clamps `annual_reduction ∈ [0,1]`,
`one_time_reduction ∈ [0,∞)`, `uncertainty ∈ [0,1]`. -/
def validateIntervention (currentYear : ℤ) (iv : InterventionInput) : Intervention :=
  { name := iv.name.getD "Unnamed Intervention"
    type := iv.type.getD "efficiency"
    start_year := iv.start_year.getD (currentYear + 1)
    implementation_duration := iv.implementation_duration.getD 1
    annual_reduction := max 0 (min 1 (iv.annual_reduction.getD 0))
    one_time_reduction := max 0 (iv.one_time_reduction.getD 0)
    cost := iv.cost.getD 0
    annual_savings := iv.annual_savings.getD 0
    effectiveness_decay := iv.effectiveness_decay.getD 0
    scope := iv.scope.getD "all"
    uncertainty := max 0 (min 1 (iv.uncertainty.getD (1/10))) }

/-- `_validate_interventions` (lines 195-227).  The `except` fallback that
returns the raw input list is unreachable for well-typed dicts, so the
embedding is the plain map. -/
def validate_interventions (interventions : List InterventionInput)
    (currentYear : ℤ) : List Intervention :=
  interventions.map (validateIntervention currentYear)

/-- The per-(intervention, year) standard-normal draw consumed by
`np.random.normal(1.0, uncertainty)` at line 270, made explicit:
`oracle i y` is the draw for intervention index `i` in projection year
`y`, and the perturbation factor is `1 + uncertainty * oracle i y`
(`np.random.normal(loc, scale)` is `loc + scale * z`; for
`uncertainty = 0` numpy returns exactly `loc = 1.0`). -/
def NoiseOracle : Type := ℕ → ℕ → ℚ

/-- Effectiveness of an intervention in a given projection year
(lines 255-271): 0 before the start offset, a linear ramp
`(years_since_start + 1) / implementation_duration` during implementation,
decayed full effect `(1 - decay)^(years_since_implementation)` afterwards,
then the uncertainty perturbation and the clamp into `[0, 1]`. -/
def interventionEffectiveness (iv : Intervention) (intervention_start : ℤ)
    (year : ℕ) (draw : ℚ) : ℚ :=
  if intervention_start ≤ (year : ℤ) then
    let years_since_start := (year : ℤ) - intervention_start
    let base :=
      if years_since_start < iv.implementation_duration then
        ((years_since_start : ℚ) + 1) / (iv.implementation_duration : ℚ)
      else
        (1 - iv.effectiveness_decay) ^ (years_since_start - iv.implementation_duration).toNat
    max 0 (min 1 (base * (1 + iv.uncertainty * draw)))
  else 0

/-- The `effect['annual_impact']` array of one intervention
(lines 243-295): per-year absolute reduction
`baseline_emission[year] * annual_reduction * effectiveness`, plus the
one-time reduction in the first active year. -/
def interventionAnnualImpact (baseline_emissions : List ℚ) (start_year_abs : ℤ)
    (currentYear : ℤ) (iv : Intervention) (ivIdx : ℕ) (oracle : NoiseOracle)
    (timeline_years : ℕ) : List ℚ :=
  let intervention_start := start_year_abs - currentYear
  (List.range (timeline_years + 1)).map (fun (year : ℕ) =>
    if intervention_start ≤ (year : ℤ) then
      let eff := interventionEffectiveness iv intervention_start year (oracle ivIdx year)
      let base := baseline_emissions.getD year 0
      let red := base * (iv.annual_reduction * eff)
      if (year : ℤ) = intervention_start then red + iv.one_time_reduction else red
    else 0)

/-- Projections dict of an intervention scenario: the adjusted per-year
lists plus the recomputed summary (the extra cost/reduction summary keys
of lines 312-317 are read by no claim and are not modelled). -/
structure InterventionProjections where
  series : ProjectionSeries
  summary : ProjectionSummary
  annual_impacts : List (List ℚ)
  deriving Repr, DecidableEq

/-- `_project_emissions_with_interventions` (lines 229-326): start from
the freshly recomputed baseline projection, subtract every intervention's
annual impact (each impact is computed against the *baseline* emissions,
line 274), recompute the cumulative sums from the adjusted series, and
rebuild the summary (whose `emission_change_total` again divides by the
adjusted `emissions[0]`, raising `ZeroDivisionError` when it is zero). -/
def project_emissions_with_interventions (params : BaselineParams)
    (timeline_years : ℕ) (interventions : List Intervention)
    (currentYear : ℤ) (oracle : NoiseOracle) :
    Except ScenarioError InterventionProjections := do
  let baseline := projectEmissionsSeries params timeline_years currentYear
  let impacts := (interventions.zip (List.range interventions.length)).map
    (fun p => interventionAnnualImpact baseline.emissions p.1.start_year
      currentYear p.1 p.2 oracle timeline_years)
  let adjusted := (List.range (timeline_years + 1)).map (fun year =>
    baseline.emissions.getD year 0 - (impacts.map (fun l => l.getD year 0)).sum)
  let cumulative := runningSum adjusted
  let summary ← projectionSummary adjusted (cumulative.getLastD 0)
  return { series := { baseline with emissions := adjusted, cumulative_emissions := cumulative }
           summary := summary
           annual_impacts := impacts }

/-- An intervention scenario as returned by `create_intervention_scenario`
(lines 57-78).  The `impact_metrics` dict (line 75, built by
`_calculate_scenario_impact`, which swallows its own errors and is read by
no claim) is not modelled. -/
structure Scenario where
  name : String
  type : String
  params : BaselineParams
  timeline_years : ℕ
  interventions : List Intervention
  projections : InterventionProjections
  deriving Repr, DecidableEq

/-- `create_intervention_scenario` (scenario_modeling.py lines 46-82):
requires an existing baseline, deep-copies its parameters and horizon,
validates the interventions, projects. -/
def create_intervention_scenario (st : ModelerState) (name : String)
    (interventions : List InterventionInput) (oracle : NoiseOracle) :
    Except ScenarioError Scenario := do
  match st.baseline with
  | none => .error .noBaseline
  | some b => do
      let validated := validate_interventions interventions st.currentYear
      let projections ← project_emissions_with_interventions b.params
        b.timeline_years validated st.currentYear oracle
      return { name := name, type := "intervention", params := b.params
               timeline_years := b.timeline_years
               interventions := validated, projections := projections }

/-- The required-annual-rate formula of `create_target_scenario`
(line 104): `required_rate = target_reduction / years_to_target`. -/
def target_required_annual_rate (target_reduction : ℚ)
    (target_year currentYear : ℤ) : ℚ :=
  target_reduction / ((target_year - currentYear : ℤ) : ℚ)

/-- `create_target_scenario` (scenario_modeling.py lines 84-136).  After
validating the baseline and the target year and assembling the scenario
dict (including `required_annual_rate`, line 115), line 126 calls
`self._project_target_scenario(scenario)`.  That method is defined
nowhere in the repository, so the call raises `AttributeError`, which the
`except` block re-raises: the method can never return a scenario.  (The
intervening `_recommend_interventions_for_target` computation of
lines 120-123 is pure and its result is discarded by the failure, so it
is not modelled.) -/
def create_target_scenario (st : ModelerState) (target_reduction : ℚ)
    (target_year : ℤ) : Except ScenarioError (ℚ × ℚ) :=
  match st.baseline with
  | none => .error .noBaseline
  | some b =>
      let years_to_target := target_year - st.currentYear
      if years_to_target ≤ 0 then .error .targetYearNotInFuture
      else
        -- Lines 102-118 build the scenario dict, whose
        -- `(target_emissions, required_annual_rate)` pair (the payload
        -- type of this embedding) would be
        let target_emissions := b.params.current_emissions * (1 - target_reduction)
        let required_rate :=
          target_required_annual_rate target_reduction target_year st.currentYear
        let _scenario_payload := (target_emissions, required_rate)
        -- — but line 126 then raises the AttributeError, so no scenario is
        -- ever returned.
        .error .missingProjectTargetScenario

end CarbonIntel.Scen

namespace CarbonIntel.Anom

/-! ## `anomaly_detection.py` — `EmissionAnomalyDetector`

The feature table built by `prepare_features` (lines 21-67) is pandas
plumbing producing a deterministic numeric table from the raw frame; it
is modelled as the explicit `Features` input (column name × numeric
column), supplied to training and to detection exactly as the source
recomputes it for each call. -/

/-- A prepared feature table: named numeric columns of equal length. -/
abbrev Features := List (String × List ℚ)

/-- Sample variance with `ddof = 1`, i.e. the square of the pandas
`.std()` used throughout `anomaly_detection.py`; `none` models the `NaN`
pandas returns for fewer than two values. -/
def sampleVar? (xs : List ℚ) : Option ℚ :=
  if xs.length ≤ 1 then none
  else some ((xs.map (fun x => (x - qmean xs) ^ 2)).sum / ((xs.length : ℚ) - 1))

/-- Stable insert into an ascending list of values. -/
def insertSortedQ (x : ℚ) : List ℚ → List ℚ
  | [] => [x]
  | y :: ys => if x < y then x :: y :: ys else y :: insertSortedQ x ys

/-- Ascending sort of values. -/
def sortAscQ (xs : List ℚ) : List ℚ := xs.foldl (fun acc x => insertSortedQ x acc) []

/-- `Series.quantile(q)` with pandas' default linear interpolation:
position `h = (n-1)·q` on the sorted data, linearly interpolated between
the neighbouring order statistics. -/
def quantileLin (q : ℚ) (xs : List ℚ) : ℚ :=
  let sorted := sortAscQ xs
  let h : ℚ := ((xs.length : ℚ) - 1) * q
  let i : ℕ := h.floor.toNat
  let lo := sorted.getD i 0
  let hi := sorted.getD (i + 1) lo
  lo + (h - (h.floor : ℚ)) * (hi - lo)

/-- The per-column thresholds stored by `train_statistical_detector`
(lines 139-143): the fixed z-score cut-off 3 and the 1.5×IQR fences. -/
structure ColThresholds where
  z_score : ℚ
  iqr_lower : ℚ
  iqr_upper : ℚ
  deriving Repr, DecidableEq

/-- Threshold computation of `train_statistical_detector` for one column
(lines 124-128). -/
def colThresholds (data : List ℚ) : ColThresholds :=
  let Q1 := quantileLin (1/4) data
  let Q3 := quantileLin (3/4) data
  let IQR := Q3 - Q1
  ⟨3, Q1 - 3/2 * IQR, Q3 + 3/2 * IQR⟩

/-- `train_statistical_detector` (lines 111-156).  The method also scores
the training data itself (`z_score_anomalies` / `iqr_anomalies` masks and
rates); only the stored `thresholds` sub-dict is read again by
`detect_anomalies`, so only it is modelled.  (`dropna` is a no-op on the
total `ℚ` columns of the embedding.) -/
def train_statistical_detector (features : Features) : List (String × ColThresholds) :=
  features.map (fun c => (c.1, colThresholds c.2))

/-- The z-score comparison `np.abs((x - mean) / std) > z` in squared form:
for `std > 0` the two are equivalent (`(x-mean)² > z²·var`), and the
squared form also reproduces numpy's edge cases exactly — `std = 0` gives
`0/0 = nan > z = False` when `x = mean` (here `0 > 0`), and
`inf > z = True` when `x ≠ mean` (here a positive value `> 0`); a `NaN`
std from fewer than two samples (`var = none`) compares `False`. -/
def zFlag (x mean : ℚ) (var : Option ℚ) (zThresh : ℚ) : Bool :=
  match var with
  | none => false
  | some v => decide (zThresh ^ 2 * v < (x - mean) ^ 2)

/-- Per-column verdicts of the statistical branch of `detect_anomalies`
(lines 285-301): the IQR fences come from the *trained* thresholds, but
the z-score standardisation recomputes `data.mean()` / `data.std()` on
the NEW data (line 291). -/
def statColumnVerdict (th : ColThresholds) (data : List ℚ) : List Bool :=
  let m := qmean data
  let v := sampleVar? data
  data.map (fun x =>
    zFlag x m v th.z_score || decide (x < th.iqr_lower) || decide (th.iqr_upper < x))

/-- `np.any(mask_list, axis=0)`: per-record disjunction across columns. -/
def anyAcross (cols : List (List Bool)) : List Bool :=
  (List.range ((cols.headD []).length)).map (fun i => cols.any (fun c => c.getD i false))

/-- Statistical detection on new data (lines 283-308): columns present in
both the new features and the trained thresholds contribute; `none` when
no column matches (then no `statistical` entry is added to `results`). -/
def stat_detect (trained : List (String × ColThresholds)) (features : Features) :
    Option (List Bool) :=
  let cols := features.filterMap (fun c =>
    (trained.lookup c.1).map (fun th => statColumnVerdict th c.2))
  if cols.isEmpty then none else some (anyAcross cols)

/-- Trailing window of width `w` ending at index `i` (`Series.rolling`):
`none` while fewer than `w` observations are available (pandas `NaN`). -/
def rollingWindow (w : ℕ) (xs : List ℚ) (i : ℕ) : Option (List ℚ) :=
  if w ≤ i + 1 then some ((xs.take (i + 1)).drop (i + 1 - w)) else none

/-- `rolling(window=w).mean()`. -/
def rollingMean (w : ℕ) (xs : List ℚ) : List (Option ℚ) :=
  (List.range xs.length).map (fun i => (rollingWindow w xs i).map qmean)

/-- Squared `rolling(window=w).std()`, i.e. the rolling sample variance. -/
def rollingVar (w : ℕ) (xs : List ℚ) : List (Option ℚ) :=
  (List.range xs.length).map (fun i => (rollingWindow w xs i).bind sampleVar?)

/-- Least-squares slope `np.polyfit(range(len(x)), x, 1)[0]`. -/
def lsqSlope (ys : List ℚ) : ℚ :=
  let xs := (List.range ys.length).map (fun i => (i : ℚ))
  let xm := qmean xs
  let ym := qmean ys
  (((xs.zip ys).map (fun p => (p.1 - xm) * (p.2 - ym))).sum) /
    ((xs.map (fun x => (x - xm) ^ 2)).sum)

/-- `emissions.rolling(window=14).apply(polyfit-slope)` (lines 179-181). -/
def rollingTrend (xs : List ℚ) : List (Option ℚ) :=
  (List.range xs.length).map (fun i => (rollingWindow 14 xs i).map lsqSlope)

/-- Values of the time-series input sharing calendar month `m`
(`groupby(index.month)`). -/
def monthGroup (data : List (ℕ × ℚ)) (m : ℕ) : List ℚ :=
  (data.filter (fun p => p.1 = m)).map (·.2)

/-- The `combined_anomalies` mask of `train_time_series_detector`
(lines 158-209) over date-sorted `(calendar month, emissions)` pairs:
* level shifts — `|x − rolling₃₀ mean| > 2·rolling₃₀ std` (squared form,
  `NaN` windows compare `False`);
* trend breaks — `|Δ rolling₁₄ slope| > std(rolling₁₄ slope)` where the
  std skips `NaN`s (pandas `.std()`);
* seasonal — `|x − month mean| > 2·month std` (a single-member month has
  `NaN` std, comparing `False`). -/
def time_series_combined_anomalies (data : List (ℕ × ℚ)) : List Bool :=
  let values := data.map (·.2)
  let rm := rollingMean 30 values
  let rv := rollingVar 30 values
  let rt := rollingTrend values
  let trendVar := sampleVar? (rt.filterMap id)
  (List.range values.length).map (fun i =>
    let x := values.getD i 0
    let level :=
      match rm.getD i none, rv.getD i none with
      | some m, some v => decide (4 * v < (x - m) ^ 2)
      | _, _ => false
    let trend :=
      match i with
      | 0 => false
      | j + 1 =>
          match rt.getD (j + 1) none, rt.getD j none, trendVar with
          | some a, some b, some v => decide (v < (a - b) ^ 2)
          | _, _, _ => false
    let seasonal :=
      let g := monthGroup data ((data.getD i (0, 0)).1)
      match sampleVar? g with
      | some v => decide (4 * v < (x - qmean g) ^ 2)
      | none => false
    level || trend || seasonal)

/-- The state stored by `train_all_detectors` in `self.models`
(lines 238-240).  The fitted IsolationForest together with its fitted
`StandardScaler` (sklearn estimators, lines 69-109) is an opaque
record-verdict function `Features → List Bool` (the
`predictions == -1` mask of lines 271-278); the `time_series` entry
stores the training-run result, which `detect_anomalies` never reads. -/
structure AnomalyModels where
  isolation_forest : Option (Features → List Bool)
  statistical : Option (List (String × ColThresholds))
  time_series : Option (List Bool)

/-- `train_all_detectors` (lines 215-253): fits all three detectors and
stores them.  `iso_fitted` stands for the fitted scaler+forest pair. -/
def train_all_detectors (emission_features : Features)
    (ts_data : List (ℕ × ℚ)) (iso_fitted : Features → List Bool) : AnomalyModels :=
  { isolation_forest := some iso_fitted
    statistical := some (train_statistical_detector emission_features)
    time_series := some (time_series_combined_anomalies ts_data) }

/-- The `results` dict assembled inside `detect_anomalies`
(lines 264-308): an `isolation_forest` entry (lines 267-280), then a
`statistical` entry (lines 283-308) — and, decisively, NO `time_series`
entry: the trained time-series detector is never applied to new data. -/
def methodVerdicts (models : AnomalyModels) (new_features : Features) :
    List (String × List Bool) :=
  (match models.isolation_forest with
   | some f => [("isolation_forest", f new_features)]
   | none => []) ++
  (match models.statistical.bind (fun tr => stat_detect tr new_features) with
   | some v => [("statistical", v)]
   | none => [])

/-- One entry of `anomalous_records` (lines 325-341).  The copied source
columns (lines 331-334) carry no verification content and are not
modelled. -/
structure AnomalousRecord where
  index : ℕ
  detected_by : List String
  deriving Repr, DecidableEq

/-- Result of `detect_anomalies` (lines 343-358). -/
structure DetectionResult where
  anomalous_records : List AnomalousRecord
  total_anomalies : ℕ
  anomaly_rate : ℚ
  deriving Repr, DecidableEq

/-- `detect_anomalies` (anomaly_detection.py lines 255-362).
`n_records = len(new_data)` is the common length of the verdict arrays.
The union `np.any(all_anomalies, axis=0)` (line 319) ranges over exactly
the methods present in `results`; `detected_by` collects the methods
whose mask is set at the record's index (lines 336-339).  (The
`is_trained` guard and the timestamp/message fields are not modelled;
`anomaly_rate = 0/0` for `n_records = 0` would raise in Python — no
result below evaluates that case.) -/
def detect_anomalies (models : AnomalyModels) (new_features : Features)
    (n_records : ℕ) : DetectionResult :=
  let results := methodVerdicts models new_features
  if results.isEmpty then ⟨[], 0, 0⟩
  else
    let records := (List.range n_records).filterMap (fun i =>
      if results.any (fun mv => mv.2.getD i false) then
        some ⟨i, (results.filter (fun mv => mv.2.getD i false)).map (·.1)⟩
      else none)
    ⟨records, records.length, (records.length : ℚ) / (n_records : ℚ)⟩

end CarbonIntel.Anom

namespace CarbonIntel.Fore

/-! ## `forecasting.py` — `EmissionForecaster.train_models` -/

/-- The per-model performance record; only `test_mae` steers model
selection (line 259). -/
structure FitResult where
  test_mae : ℚ
  deriving Repr, DecidableEq

/-- The errors `train_models` can raise (lines 236 and 269).  There is
deliberately no data-insufficiency variant: no length check exists
anywhere in `forecasting.py` (or the repository), and no
`DataInsufficientError` class is defined. -/
inductive TrainError where
  | missingEmissionsColumn
  | noModelsTrained
  deriving Repr, DecidableEq

/-- The output of `prepare_data` (lines 32-56, pandas resampling —
not re-modelled): `none` models a prepared frame without an
`emissions` column. -/
structure PreparedData where
  emissions : Option (List ℚ)

/-- Return value of `train_models` (lines 278-282).  `best_score` starts
at `float('inf')` and `best_model` at `None`; with at least one trained
candidate both are set (`none` = never updated). -/
structure TrainSummary where
  models : List (String × FitResult)
  best_model : Option String
  best_score : Option ℚ
  deriving Repr, DecidableEq

/-- The best-candidate fold of lines 247-262: keep the first candidate
whose `test_mae` strictly beats the best so far (initially `inf`). -/
def selectBest (results : List (String × FitResult)) : Option (String × ℚ) :=
  results.foldl
    (fun acc r =>
      match acc with
      | none => some (r.1, r.2.test_mae)
      | some b => if r.2.test_mae < b.2 then some (r.1, r.2.test_mae) else some b)
    none

/-- `train_models` (forecasting.py lines 229-286), parameterised by the
candidate trainers (`linear` / `arima` / `prophet`, whose sklearn /
statsmodels / prophet fitting is opaque: a trainer returns a `FitResult`
or fails).  Control flow translated directly: check the `emissions`
column, try every candidate, skip failures (lines 264-266), raise only
when NO candidate trained (lines 268-269).  No input-length validation of
any kind occurs before fitting. -/
def train_models (data : PreparedData)
    (trainers : List (String × (List ℚ → Except String FitResult))) :
    Except TrainError TrainSummary :=
  match data.emissions with
  | none => .error .missingEmissionsColumn
  | some series =>
      let results := trainers.filterMap (fun t =>
        match t.2 series with
        | .ok r => some (t.1, r)
        | .error _ => none)
      if results.isEmpty then .error .noModelsTrained
      else
        let best := selectBest results
        .ok ⟨results, best.map (·.1), best.map (·.2)⟩

end CarbonIntel.Fore

namespace CarbonIntel.Scen

/-! Concrete sample inputs used by the concrete evaluations below. -/

/-- A small company profile: 10000 t current emissions, zero business
growth and zero efficiency gain, a one-year scenario horizon. -/
def sampleCompany : CompanyData := ⟨some 10000, none, some 0, some 0, some 1⟩

/-- The baseline `create_baseline_scenario sampleCompany 2026` produces:
flat emissions `[10000, 10000]` over 2026-2027. -/
def sampleBaseline : Baseline :=
  { params := ⟨10000, 1/50, 0, 0⟩
    timeline_years := 1
    projections :=
      { series := ⟨[2026, 2027], [10000, 10000], [10000, 20000], [10000, 10000]⟩
        summary := ⟨20000, 10000, 10000, 0, 0, 10000⟩ } }

/-- An intervention starting immediately (2026), one-year ramp, 50%
annual reduction, every other field left to its default — in particular
`uncertainty` is absent and therefore defaults to `0.1`. -/
def sampleIntervention : InterventionInput :=
  ⟨some "Solar Installation", none, some 2026, some 1, some (1/2),
   none, none, none, none, none, none⟩

/-- The same intervention with `uncertainty` explicitly zero. -/
def sampleInterventionNoNoise : InterventionInput :=
  ⟨some "Solar Installation", none, some 2026, some 1, some (1/2),
   none, none, none, none, none, some 0⟩

end CarbonIntel.Scen

/-! ## Theorems -/

namespace CarbonIntel.Opt

theorem ceGreedyStep_cost_le (p : ProblemDef)
    (acc : List SelectedInitiative × ℚ × ℚ) (idx : ℕ)
    (h : acc.2.1 ≤ p.budget_constraint) :
    (ceGreedyStep p acc idx).2.1 ≤ p.budget_constraint := by
  unfold ceGreedyStep
  cases p.initiatives[idx]? with
  | none => exact h
  | some init =>
      dsimp only
      split
      · next hc => exact hc
      · exact h

theorem ceGreedy_foldl_cost_le (p : ProblemDef) (idxs : List ℕ)
    (acc : List SelectedInitiative × ℚ × ℚ)
    (h : acc.2.1 ≤ p.budget_constraint) :
    (idxs.foldl (ceGreedyStep p) acc).2.1 ≤ p.budget_constraint := by
  induction idxs generalizing acc with
  | nil => exact h
  | cons i is ih => exact ih _ (ceGreedyStep_cost_le p acc i h)

/-- The greedy loop invariant: the reported total cost never exceeds the
budget (the loop only ever accepts an initiative whose addition keeps the
running cost within budget, optimization.py line 71). -/
theorem cost_effectiveness_cost_le (p : ProblemDef)
    (hb : 0 ≤ p.budget_constraint) :
    (cost_effectiveness_optimization p).total_cost ≤ p.budget_constraint :=
  ceGreedy_foldl_cost_le p _ ([], 0, 0) hb

/-- A solution within `linprog`'s constraint set yields a reported cost
within budget. -/
theorem lp_success_cost_le (p : ProblemDef) (x : List ℚ) (hx : lpFeasible p x) :
    (linear_programming_optimization p (some x)).total_cost ≤ p.budget_constraint :=
  hx.2.2

theorem argminBy_min (f : List Bool → ℚ) (init : List Bool)
    (rest : List (List Bool)) :
    f (argminBy f init rest) ≤ f init ∧
      ∀ s ∈ rest, f (argminBy f init rest) ≤ f s := by
  induction rest generalizing init with
  | nil => exact ⟨le_refl _, by intro s hs; cases hs⟩
  | cons s ss ih =>
      have hstep : argminBy f init (s :: ss) =
          argminBy f (if f s < f init then s else init) ss := by
        simp [argminBy]
      have h := ih (if f s < f init then s else init)
      have hle_init : f (if f s < f init then s else init) ≤ f init := by
        split
        · next hlt => exact le_of_lt hlt
        · exact le_refl _
      have hle_s : f (if f s < f init then s else init) ≤ f s := by
        split
        · exact le_refl _
        · next hge => exact le_of_not_lt hge
      refine ⟨hstep ▸ le_trans h.1 hle_init, ?_⟩
      intro t ht
      rcases List.mem_cons.mp ht with rfl | htss
      · exact hstep ▸ le_trans h.1 hle_s
      · exact hstep ▸ h.2 t htss

theorem replicate_false_mem_allSelections (n : ℕ) :
    List.replicate n false ∈ allSelections n := by
  induction n with
  | zero => simp [allSelections]
  | succ n ih =>
      simp only [allSelections, List.mem_append, List.mem_map, List.replicate_succ]
      exact Or.inl ⟨_, ih, rfl⟩

theorem ga_argmin_min (f : List Bool → ℚ) (n : ℕ) :
    ∀ s ∈ allSelections n, f (ga_argmin f n) ≤ f s := by
  intro s hs
  unfold ga_argmin
  cases hE : allSelections n with
  | nil => rw [hE] at hs; cases hs
  | cons h t =>
      rw [hE] at hs
      have hmin := argminBy_min f h t
      rcases List.mem_cons.mp hs with rfl | hst
      · exact hmin.1
      · exact hmin.2 s hst

theorem selDot_replicate_false (n : ℕ) (vals : List ℚ) :
    selDot (List.replicate n false) vals = 0 := by
  induction n generalizing vals with
  | zero => simp [selDot]
  | succ n ih =>
      cases vals with
      | nil => simp [selDot]
      | cons v vs =>
          simp only [selDot, List.replicate_succ, List.zip_cons_cons, List.map_cons,
            List.sum_cons, if_neg (by simp : ¬(false : Bool) = true)]
          simpa [selDot] using ih vs

/-- The multi-objective search can never settle on an over-budget
selection: any such selection scores the hard `1e6` value, which is worse
than the all-zero selection's score `0`. -/
theorem multi_objective_cost_le (p : ProblemDef)
    (hb : 0 < p.budget_constraint) :
    (multi_objective_optimization p).total_cost ≤ p.budget_constraint := by
  set s := ga_argmin (mo_objective p) p.numInitiatives with hs
  by_contra hgt
  push_neg at hgt
  have htc : (multi_objective_optimization p).total_cost = selDot s p.costs := rfl
  rw [htc] at hgt
  have hover : mo_objective p s = 1000000 := by
    simp only [mo_objective]
    rw [if_pos hgt]
  have hempty : mo_objective p (List.replicate p.numInitiatives false) = 0 := by
    simp only [mo_objective, selDot_replicate_false]
    rw [if_neg (not_lt.mpr (le_of_lt hb))]
    norm_num
  have hmin := ga_argmin_min (mo_objective p) p.numInitiatives
    (List.replicate p.numInitiatives false)
    (replicate_false_mem_allSelections p.numInitiatives)
  rw [← hs, hover, hempty] at hmin
  norm_num at hmin

/-- Claim C1 — counterexample.  With the catalog `[(cost=1001,
reduction=2000)]`, budget `1000` and target `100` (all costs, the budget
and the target positive), the genetic-algorithm objective strictly
prefers the over-budget selection (score `-2000 + 1000·1 = -1000`) to the
empty one (score `0`); the optimum decodes to a result that is marked
`success = true` yet reports `total_cost = 1001 > 1000 = budget`.  The
source never re-checks the budget after the solver returns
(optimization.py lines 188-213), so the "hard invariant checked post-hoc"
of the claim does not exist for this strategy. -/
theorem ga_budget_invariant_counterexample :
    (genetic_algorithm_optimization
      (define_reduction_problem [⟨"Retrofit", 1001, 2000, none⟩] 1000 100).1).success
        = true ∧
    1000 < (genetic_algorithm_optimization
      (define_reduction_problem [⟨"Retrofit", 1001, 2000, none⟩] 1000 100).1).total_cost := by
  constructor
  · rfl
  · norm_num [genetic_algorithm_optimization, gaResultOf, ga_argmin, allSelections,
      argminBy, ga_objective, selDot, define_reduction_problem, ProblemDef.costs,
      ProblemDef.impacts, ProblemDef.numInitiatives]

/-- Claim C1 — amended.  For every problem with positive budget (and, for
the multi-objective strategy, a catalog with positive total reduction
potential, keeping the embedding clear of numpy's `0/0`): the greedy
strategy, any `linprog`-feasible linear-programming success, and the
multi-objective strategy all report `total_cost ≤ budget`.  The genetic
algorithm is excluded: its finite overage penalty admits successful
over-budget results (see the counterexample). -/
theorem successful_results_respect_budget :
    (∀ p : ProblemDef, 0 < p.budget_constraint →
      (cost_effectiveness_optimization p).total_cost ≤ p.budget_constraint) ∧
    (∀ (p : ProblemDef) (x : List ℚ), lpFeasible p x →
      (linear_programming_optimization p (some x)).total_cost ≤ p.budget_constraint) ∧
    (∀ p : ProblemDef, 0 < p.budget_constraint → 0 < p.impacts.sum →
      (multi_objective_optimization p).total_cost ≤ p.budget_constraint) :=
  ⟨fun p hb => cost_effectiveness_cost_le p (le_of_lt hb),
   fun p x hx => lp_success_cost_le p x hx,
   fun p hb _himp => multi_objective_cost_le p hb⟩

/-- Witness for `successful_results_respect_budget` at the concrete
problem `([(cost=2, reduction=3)], budget=10, target=5)` with the LP
solution `x = [1]`. -/
theorem successful_results_respect_budget_witness :
    (cost_effectiveness_optimization
      (define_reduction_problem [⟨"A", 2, 3, none⟩] 10 5).1).total_cost ≤ 10 ∧
    (linear_programming_optimization
      (define_reduction_problem [⟨"A", 2, 3, none⟩] 10 5).1 (some [1])).total_cost ≤ 10 ∧
    (multi_objective_optimization
      (define_reduction_problem [⟨"A", 2, 3, none⟩] 10 5).1).total_cost ≤ 10 :=
  ⟨successful_results_respect_budget.1 _ (by norm_num [define_reduction_problem]),
   successful_results_respect_budget.2.1 _ [1]
     (by norm_num [lpFeasible, define_reduction_problem, ProblemDef.costs,
       ProblemDef.numInitiatives]),
   successful_results_respect_budget.2.2 _ (by norm_num [define_reduction_problem])
     (by norm_num [define_reduction_problem, ProblemDef.impacts])⟩

/-- Claim C8 — counterexample.  `define_reduction_problem` performs no
input validation whatsoever: an initiative with negative cost and
negative reduction, a negative budget and a negative target are accepted
without any error, and the problem summary (including the ratio
`-3 / -5 = 3/5`) is computed and returned (optimization.py lines 31-51
contain no check; the `except` clause can only re-raise `KeyError`s from
malformed dicts). -/
theorem define_problem_no_rejection_counterexample :
    define_reduction_problem [⟨"Bad", -5, -3, none⟩] (-10) (-1) =
      (⟨[⟨"Bad", -5, -3, none⟩], -10, -1⟩, ⟨1, -3, -5, [3/5]⟩) := by
  norm_num [define_reduction_problem, ProblemDef.impacts, ProblemDef.costs]

/-- Claim C8 — amended.  `define_reduction_problem` rejects nothing: even
when some initiative has non-positive cost or negative reduction, or the
budget or target is non-positive, the problem is defined verbatim from
the inputs and the summary reports all of them; no error kind exists. -/
theorem define_problem_accepts_invalid_inputs :
    ∀ (inits : List Initiative) (b t : ℚ),
      (∃ i ∈ inits, i.cost ≤ 0 ∨ i.co2_reduction < 0) ∨ b ≤ 0 ∨ t ≤ 0 →
      (define_reduction_problem inits b t).1 = ⟨inits, b, t⟩ ∧
        (define_reduction_problem inits b t).2.num_initiatives = inits.length := by
  intro inits b t _h
  exact ⟨rfl, rfl⟩

/-- Witness for `define_problem_accepts_invalid_inputs` at the violating
input of the counterexample. -/
theorem define_problem_accepts_invalid_inputs_witness :
    (define_reduction_problem [⟨"Bad", -5, -3, none⟩] (-10) (-1)).1 =
      ⟨[⟨"Bad", -5, -3, none⟩], -10, -1⟩ ∧
    (define_reduction_problem [⟨"Bad", -5, -3, none⟩] (-10) (-1)).2.num_initiatives = 1 :=
  define_problem_accepts_invalid_inputs _ _ _ (Or.inr (Or.inl (by norm_num)))

/-- Claim C9 — counterexample.  On the spec's concrete catalog the greedy
strategy does NOT select the `200000/500` and `50000/100` initiatives:
the ratio of `50000/100` and of `75000/150` tie at exactly `0.002`, and
`np.argsort(ratios)[::-1]` (the reversal of a stable ascending sort)
breaks the tie toward the higher index, so the `75000/150` initiative is
taken first and the `50000/100` one no longer fits: the selection is
indices `[1, 2]` with `total_cost = 275000 ≠ 250000` and
`total_reduction = 650 ≠ 600`. -/
theorem greedy_tiebreak_counterexample :
    ((cost_effectiveness_optimization (define_reduction_problem
      [⟨"Solar Panels", 50000, 100, none⟩, ⟨"Wind Power", 200000, 500, none⟩,
       ⟨"HVAC Upgrade", 75000, 150, none⟩, ⟨"EV Fleet", 150000, 200, none⟩]
      300000 400).1).selected_initiatives.map (·.index)) = [1, 2] ∧
    (cost_effectiveness_optimization (define_reduction_problem
      [⟨"Solar Panels", 50000, 100, none⟩, ⟨"Wind Power", 200000, 500, none⟩,
       ⟨"HVAC Upgrade", 75000, 150, none⟩, ⟨"EV Fleet", 150000, 200, none⟩]
      300000 400).1).total_cost = 275000 ∧
    (cost_effectiveness_optimization (define_reduction_problem
      [⟨"Solar Panels", 50000, 100, none⟩, ⟨"Wind Power", 200000, 500, none⟩,
       ⟨"HVAC Upgrade", 75000, 150, none⟩, ⟨"EV Fleet", 150000, 200, none⟩]
      300000 400).1).total_cost ≠ 250000 := by
  refine ⟨?_, ?_, ?_⟩ <;>
    norm_num [cost_effectiveness_optimization, define_reduction_problem, ceGreedyStep,
      argsortAsc, insertAsc, ProblemDef.numInitiatives, List.range_succ]

/-- Claim C9 — amended.  On the concrete catalog the greedy strategy
selects the `200000/500` initiative and then — by the argsort tie-break
between the equal ratios of `50000/100` and `75000/150` — the `75000/150`
one, reporting `total_cost = 275000 ≤ 300000` and
`total_reduction = 650 ≥ 400`, hence `target_achievement ≥ 1`. -/
theorem greedy_concrete_selection :
    ((cost_effectiveness_optimization (define_reduction_problem
      [⟨"Solar Panels", 50000, 100, none⟩, ⟨"Wind Power", 200000, 500, none⟩,
       ⟨"HVAC Upgrade", 75000, 150, none⟩, ⟨"EV Fleet", 150000, 200, none⟩]
      300000 400).1).selected_initiatives.map (·.index)) = [1, 2] ∧
    (cost_effectiveness_optimization (define_reduction_problem
      [⟨"Solar Panels", 50000, 100, none⟩, ⟨"Wind Power", 200000, 500, none⟩,
       ⟨"HVAC Upgrade", 75000, 150, none⟩, ⟨"EV Fleet", 150000, 200, none⟩]
      300000 400).1).total_cost = 275000 ∧
    (cost_effectiveness_optimization (define_reduction_problem
      [⟨"Solar Panels", 50000, 100, none⟩, ⟨"Wind Power", 200000, 500, none⟩,
       ⟨"HVAC Upgrade", 75000, 150, none⟩, ⟨"EV Fleet", 150000, 200, none⟩]
      300000 400).1).total_reduction = 650 ∧
    1 ≤ (cost_effectiveness_optimization (define_reduction_problem
      [⟨"Solar Panels", 50000, 100, none⟩, ⟨"Wind Power", 200000, 500, none⟩,
       ⟨"HVAC Upgrade", 75000, 150, none⟩, ⟨"EV Fleet", 150000, 200, none⟩]
      300000 400).1).target_achievement := by
  refine ⟨?_, ?_, ?_, ?_⟩ <;>
    norm_num [cost_effectiveness_optimization, define_reduction_problem, ceGreedyStep,
      argsortAsc, insertAsc, ProblemDef.numInitiatives, List.range_succ]

end CarbonIntel.Opt

namespace CarbonIntel

theorem map_getD_range (xs : List ℚ) :
    (List.range xs.length).map (fun i => xs.getD i 0) = xs := by
  induction xs with
  | nil => simp
  | cons x t ih =>
      rw [List.length_cons, List.range_succ_eq_map, List.map_cons, List.map_map]
      simp only [List.getD_cons_zero, Function.comp_def, List.getD_cons_succ]
      rw [ih]

end CarbonIntel

namespace CarbonIntel.Scen

theorem baselineEmissions_length (params : BaselineParams) (tl : ℕ) :
    (baselineEmissions params tl).length = tl + 1 := by
  simp [baselineEmissions]

/-- A successful summary means the first projected emission was nonzero
(otherwise line 181-184 raises `ZeroDivisionError`). -/
theorem projectionSummary_ok_headI_ne {e : List ℚ} {c : ℚ} {sm : ProjectionSummary}
    (h : projectionSummary e c = .ok sm) : e.headI ≠ 0 := by
  intro h0
  simp only [projectionSummary, h0, if_pos] at h
  cases h

/-- Destructor for a successful `_project_emissions` run. -/
theorem project_emissions_ok_elim {params : BaselineParams} {tl : ℕ} {cy : ℤ}
    {bp : BaselineProjections} (h : project_emissions params tl cy = .ok bp) :
    bp.series = projectEmissionsSeries params tl cy ∧
      projectionSummary bp.series.emissions
        (bp.series.cumulative_emissions.getLastD 0) = .ok bp.summary := by
  unfold project_emissions at h
  dsimp only at h
  cases hsm : projectionSummary (projectEmissionsSeries params tl cy).emissions
      ((projectEmissionsSeries params tl cy).cumulative_emissions.getLastD 0) with
  | error e => rw [hsm] at h; exact absurd h (by simp [Except.bind])
  | ok sm =>
      rw [hsm] at h
      have h2 : (Except.ok ⟨projectEmissionsSeries params tl cy, sm⟩ :
          Except ScenarioError BaselineProjections) = Except.ok bp := h
      cases h2
      exact ⟨rfl, hsm⟩

/-- Destructor for a successful `create_baseline_scenario` run. -/
theorem create_baseline_ok_elim {cd : CompanyData} {cy : ℤ} {b : Baseline}
    (h : create_baseline_scenario cd cy = .ok b) :
    b.params = ⟨cd.annual_emissions.getD 0, cd.emission_growth_rate.getD (2/100),
      cd.business_growth_rate.getD (5/100), cd.natural_efficiency.getD (1/100)⟩ ∧
    b.timeline_years = cd.scenario_timeline.getD 10 ∧
    project_emissions b.params b.timeline_years cy = .ok b.projections := by
  unfold create_baseline_scenario at h
  dsimp only at h
  cases hp : project_emissions
      ⟨cd.annual_emissions.getD 0, cd.emission_growth_rate.getD (2/100),
       cd.business_growth_rate.getD (5/100), cd.natural_efficiency.getD (1/100)⟩
      (cd.scenario_timeline.getD 10) cy with
  | error e => rw [hp] at h; exact absurd h (by simp [Except.bind])
  | ok pr =>
      rw [hp] at h
      have h2 : (Except.ok ⟨⟨cd.annual_emissions.getD 0, cd.emission_growth_rate.getD (2/100),
          cd.business_growth_rate.getD (5/100), cd.natural_efficiency.getD (1/100)⟩,
          cd.scenario_timeline.getD 10, pr⟩ : Except ScenarioError Baseline) = Except.ok b := h
      cases h2
      exact ⟨rfl, rfl, hp⟩

/-- With no interventions, the adjusted series of
`_project_emissions_with_interventions` is exactly the recomputed
baseline series, and the run succeeds as soon as the first baseline
emission is nonzero. -/
theorem project_with_empty_interventions (params : BaselineParams) (tl : ℕ)
    (cy : ℤ) (oracle : NoiseOracle)
    (h : (baselineEmissions params tl).headI ≠ 0) :
    ∃ pr, project_emissions_with_interventions params tl [] cy oracle = .ok pr ∧
      pr.series.emissions = baselineEmissions params tl ∧
      pr.series.cumulative_emissions = runningSum (baselineEmissions params tl) := by
  unfold project_emissions_with_interventions
  dsimp only
  simp only [List.length_nil, List.zip_nil_left, List.map_nil, List.sum_nil, sub_zero]
  have hmap : (List.range (tl + 1)).map
      (fun year => (projectEmissionsSeries params tl cy).emissions.getD year 0) =
      baselineEmissions params tl := by
    rw [show (projectEmissionsSeries params tl cy).emissions = baselineEmissions params tl
      from rfl]
    rw [show tl + 1 = (baselineEmissions params tl).length
      from (baselineEmissions_length params tl).symm]
    exact map_getD_range (baselineEmissions params tl)
  rw [hmap]
  cases hsm : projectionSummary (baselineEmissions params tl)
      ((runningSum (baselineEmissions params tl)).getLastD 0) with
  | error e =>
      exfalso
      simp only [projectionSummary] at hsm
      rw [if_neg h] at hsm
      cases hsm
  | ok sm =>
      exact ⟨_, rfl, rfl, rfl⟩

end CarbonIntel.Scen

namespace CarbonIntel.Scen

/-- Claim C3.  A scenario created by `create_intervention_scenario` with
an empty intervention list succeeds (given the baseline it requires) and
its projected per-year emissions and cumulative emissions coincide with
the baseline projection, year for year: with no interventions nothing is
subtracted from the recomputed baseline series and the cumulative sums
are rebuilt from the identical series. -/
theorem empty_intervention_scenario_matches_baseline
    (cd : CompanyData) (cy : ℤ) (nm : String) (oracle : NoiseOracle) (b : Baseline)
    (hb : create_baseline_scenario cd cy = .ok b) :
    ∃ s, create_intervention_scenario ⟨some b, cy⟩ nm [] oracle = .ok s ∧
      s.projections.series.emissions = b.projections.series.emissions ∧
      s.projections.series.cumulative_emissions =
        b.projections.series.cumulative_emissions := by
  obtain ⟨hparams, htl, hproj⟩ := create_baseline_ok_elim hb
  obtain ⟨hser, hsum⟩ := project_emissions_ok_elim hproj
  have hne : (baselineEmissions b.params b.timeline_years).headI ≠ 0 := by
    have hx := projectionSummary_ok_headI_ne hsum
    rw [hser] at hx
    exact hx
  obtain ⟨pr, hpr, hem, hcum⟩ :=
    project_with_empty_interventions b.params b.timeline_years cy oracle hne
  refine ⟨{ name := nm, type := "intervention", params := b.params,
            timeline_years := b.timeline_years, interventions := [],
            projections := pr }, ?_, ?_, ?_⟩
  · unfold create_intervention_scenario
    dsimp only
    rw [show validate_interventions [] cy = ([] : List Intervention) from rfl, hpr]
    rfl
  · rw [hem, hser]
    rfl
  · rw [hcum, hser]
    rfl

/-- Witness for `empty_intervention_scenario_matches_baseline` at
`sampleCompany` / `sampleBaseline`. -/
theorem empty_intervention_scenario_matches_baseline_witness :
    ∃ s, create_intervention_scenario ⟨some sampleBaseline, 2026⟩ "No Action" []
        (fun _ _ => 0) = .ok s ∧
      s.projections.series.emissions = sampleBaseline.projections.series.emissions ∧
      s.projections.series.cumulative_emissions =
        sampleBaseline.projections.series.cumulative_emissions :=
  empty_intervention_scenario_matches_baseline sampleCompany 2026 "No Action"
    (fun _ _ => 0) sampleBaseline
    (by norm_num [create_baseline_scenario, sampleCompany, sampleBaseline,
      project_emissions, projectEmissionsSeries, baselineEmissions, projectionSummary,
      runningSum, qmean, argmaxIdx, List.range_succ, List.singleton,
      bind, Except.bind, pure, Except.pure])

/-- Claim C2 (code bug).  The `required_annual_rate` formula of
`create_target_scenario` (line 104) is exactly
`target_reduction / years_to_target` — for a 50% reduction six years out,
`(1/2)/6 = 1/12 ≈ 0.0833` — but the method can never return a scenario
carrying it: for every existing baseline and future target year it raises
`AttributeError`, because line 126 calls `self._project_target_scenario`,
which is defined nowhere in the repository.  (The repository's own test
`test_target_scenario_creation` expects a returned scenario dict and
therefore fails.) -/
theorem create_target_scenario_always_raises :
    (∀ (b : Baseline) (cy ty : ℤ) (tr : ℚ), 0 < ty - cy →
        create_target_scenario ⟨some b, cy⟩ tr ty =
          .error .missingProjectTargetScenario) ∧
    target_required_annual_rate (1/2) 2032 2026 = 1/12 := by
  constructor
  · intro b cy ty tr hty
    unfold create_target_scenario
    dsimp only
    rw [if_neg (not_le.mpr hty)]
  · norm_num [target_required_annual_rate]

/-- Witness for `create_target_scenario_always_raises` at
`sampleBaseline`, current year 2026, target year 2032. -/
theorem create_target_scenario_always_raises_witness :
    create_target_scenario ⟨some sampleBaseline, 2026⟩ (1/2) 2032 =
      .error .missingProjectTargetScenario :=
  create_target_scenario_always_raises.1 sampleBaseline 2026 2032 (1/2) (by norm_num)

theorem interventionEffectiveness_zero_uncertainty (iv : Intervention)
    (start : ℤ) (year : ℕ) (d1 d2 : ℚ) (h : iv.uncertainty = 0) :
    interventionEffectiveness iv start year d1 =
      interventionEffectiveness iv start year d2 := by
  unfold interventionEffectiveness
  rw [h]
  simp

theorem interventionAnnualImpact_oracle_irrelevant (emis : List ℚ)
    (sy cy : ℤ) (iv : Intervention) (idx : ℕ) (o1 o2 : NoiseOracle) (tl : ℕ)
    (h : iv.uncertainty = 0) :
    interventionAnnualImpact emis sy cy iv idx o1 tl =
      interventionAnnualImpact emis sy cy iv idx o2 tl := by
  unfold interventionAnnualImpact
  apply List.map_congr_left
  intro year _
  dsimp only
  by_cases hy : (sy - cy : ℤ) ≤ (year : ℤ)
  · rw [if_pos hy, if_pos hy,
      interventionEffectiveness_zero_uncertainty iv _ year (o1 idx year) (o2 idx year) h]
  · rw [if_neg hy, if_neg hy]

theorem project_with_interventions_oracle_irrelevant (params : BaselineParams)
    (tl : ℕ) (ivs : List Intervention) (cy : ℤ) (o1 o2 : NoiseOracle)
    (h : ∀ iv ∈ ivs, iv.uncertainty = 0) :
    project_emissions_with_interventions params tl ivs cy o1 =
      project_emissions_with_interventions params tl ivs cy o2 := by
  unfold project_emissions_with_interventions
  dsimp only
  have himp : (ivs.zip (List.range ivs.length)).map
      (fun p => interventionAnnualImpact (projectEmissionsSeries params tl cy).emissions
        p.1.start_year cy p.1 p.2 o1 tl) =
      (ivs.zip (List.range ivs.length)).map
      (fun p => interventionAnnualImpact (projectEmissionsSeries params tl cy).emissions
        p.1.start_year cy p.1 p.2 o2 tl) := by
    apply List.map_congr_left
    intro p hp
    exact interventionAnnualImpact_oracle_irrelevant _ _ _ _ _ _ _ _
      (h p.1 (List.of_mem_zip hp).1)
  rw [himp]

/-- Claim C6 — counterexample.  The projection is NOT deterministic: the
per-year perturbation `np.random.normal(1.0, uncertainty)` (line 270) is
always drawn for an active intervention, is unseeded, and `uncertainty`
defaults to `0.1` (not to "disabled"): with the default uncertainty, two
runs whose draws differ (here the standard-normal draws `0` and `-1`)
produce different projected emissions (`[5000, 5000]` vs
`[5500, 5500]`). -/
theorem scenario_projection_nondeterminism_counterexample :
    create_intervention_scenario ⟨some sampleBaseline, 2026⟩ "Solar Program"
      [sampleIntervention] (fun _ _ => 0) ≠
    create_intervention_scenario ⟨some sampleBaseline, 2026⟩ "Solar Program"
      [sampleIntervention] (fun _ _ => -1) := by
  have h1 : create_intervention_scenario ⟨some sampleBaseline, 2026⟩ "Solar Program"
      [sampleIntervention] (fun _ _ => 0) =
      .ok ⟨"Solar Program", "intervention", ⟨10000, 1/50, 0, 0⟩, 1,
        [⟨"Solar Installation", "efficiency", 2026, 1, 1/2, 0, 0, 0, 0, "all", 1/10⟩],
        ⟨⟨[2026, 2027], [5000, 5000], [5000, 10000], [10000, 10000]⟩,
         ⟨10000, 5000, 5000, 0, 0, 5000⟩, [[5000, 5000]]⟩⟩ := by
    norm_num [create_intervention_scenario, validate_interventions, validateIntervention,
      sampleIntervention, sampleBaseline, project_emissions_with_interventions,
      interventionAnnualImpact, interventionEffectiveness, projectEmissionsSeries,
      baselineEmissions, projectionSummary, runningSum, qmean, argmaxIdx,
      List.range_succ, List.singleton, bind, Except.bind, pure, Except.pure,
      max_def, min_def]
  have h2 : create_intervention_scenario ⟨some sampleBaseline, 2026⟩ "Solar Program"
      [sampleIntervention] (fun _ _ => -1) =
      .ok ⟨"Solar Program", "intervention", ⟨10000, 1/50, 0, 0⟩, 1,
        [⟨"Solar Installation", "efficiency", 2026, 1, 1/2, 0, 0, 0, 0, "all", 1/10⟩],
        ⟨⟨[2026, 2027], [5500, 5500], [5500, 11000], [10000, 10000]⟩,
         ⟨11000, 5500, 5500, 0, 0, 5500⟩, [[4500, 4500]]⟩⟩ := by
    norm_num [create_intervention_scenario, validate_interventions, validateIntervention,
      sampleIntervention, sampleBaseline, project_emissions_with_interventions,
      interventionAnnualImpact, interventionEffectiveness, projectEmissionsSeries,
      baselineEmissions, projectionSummary, runningSum, qmean, argmaxIdx,
      List.range_succ, List.singleton, bind, Except.bind, pure, Except.pure,
      max_def, min_def]
  rw [h1, h2]
  norm_num

/-- Claim C6 — amended.  The projection is deterministic exactly relative
to the random draw sequence: when every validated intervention has
`uncertainty = 0` (the caller must pass it explicitly — it is not the
default), the perturbation factor collapses to `1` and any two draw
sequences produce identical scenarios. -/
theorem scenario_projection_deterministic_of_zero_uncertainty
    (st : ModelerState) (nm : String) (ivs : List InterventionInput)
    (o1 o2 : NoiseOracle)
    (h : ∀ iv ∈ validate_interventions ivs st.currentYear, iv.uncertainty = 0) :
    create_intervention_scenario st nm ivs o1 =
      create_intervention_scenario st nm ivs o2 := by
  unfold create_intervention_scenario
  cases hbase : st.baseline with
  | none => rfl
  | some b =>
      dsimp only
      rw [project_with_interventions_oracle_irrelevant b.params b.timeline_years
        (validate_interventions ivs st.currentYear) st.currentYear o1 o2 h]

/-- Witness for `scenario_projection_deterministic_of_zero_uncertainty`:
with `uncertainty = 0` passed explicitly, the draw sequences `0` and `7`
give the same scenario. -/
theorem scenario_projection_deterministic_witness :
    create_intervention_scenario ⟨some sampleBaseline, 2026⟩ "Zero Noise"
      [sampleInterventionNoNoise] (fun _ _ => 0) =
    create_intervention_scenario ⟨some sampleBaseline, 2026⟩ "Zero Noise"
      [sampleInterventionNoNoise] (fun _ _ => 7) :=
  scenario_projection_deterministic_of_zero_uncertainty ⟨some sampleBaseline, 2026⟩
    "Zero Noise" [sampleInterventionNoNoise] (fun _ _ => 0) (fun _ _ => 7)
    (by with_unfolding_all decide)

/-- Claim C10.  Every intervention attached to a scenario by
`create_intervention_scenario` is first normalised by
`_validate_interventions`: (1) the stored `annual_reduction` lies in
`[0,1]`, `one_time_reduction` in `[0,∞)` and `uncertainty` in `[0,1]`;
(2) missing fields receive the defaults (`uncertainty = 0.1`,
`effectiveness_decay = 0`, `implementation_duration = 1`); (3) the
scenario's `interventions` field is exactly the validated list — values
out of range are silently clamped, never rejected (validation introduces
no error path). -/
theorem intervention_validation_invariant :
    (∀ (ivs : List InterventionInput) (cy : ℤ) (iv : Intervention),
        iv ∈ validate_interventions ivs cy →
        0 ≤ iv.annual_reduction ∧ iv.annual_reduction ≤ 1 ∧
        0 ≤ iv.one_time_reduction ∧ 0 ≤ iv.uncertainty ∧ iv.uncertainty ≤ 1) ∧
    (∀ (inp : InterventionInput) (cy : ℤ),
        (inp.uncertainty = none → (validateIntervention cy inp).uncertainty = 1/10) ∧
        (inp.effectiveness_decay = none →
          (validateIntervention cy inp).effectiveness_decay = 0) ∧
        (inp.implementation_duration = none →
          (validateIntervention cy inp).implementation_duration = 1)) ∧
    (∀ (st : ModelerState) (nm : String) (ivs : List InterventionInput)
        (oracle : NoiseOracle) (s : Scenario),
        create_intervention_scenario st nm ivs oracle = .ok s →
        s.interventions = validate_interventions ivs st.currentYear) := by
  refine ⟨?_, ?_, ?_⟩
  · intro ivs cy iv hiv
    obtain ⟨inp, _, rfl⟩ := List.mem_map.mp hiv
    dsimp only [validateIntervention]
    exact ⟨le_max_left _ _, max_le (by norm_num) (min_le_left _ _),
      le_max_left _ _, le_max_left _ _, max_le (by norm_num) (min_le_left _ _)⟩
  · intro inp cy
    refine ⟨fun h => ?_, fun h => ?_, fun h => ?_⟩
    · simp only [validateIntervention, h, Option.getD_none]
      norm_num
    · simp only [validateIntervention, h, Option.getD_none]
    · simp only [validateIntervention, h, Option.getD_none]
  · intro st nm ivs oracle s h
    unfold create_intervention_scenario at h
    cases hbase : st.baseline with
    | none =>
        rw [hbase] at h
        cases h
    | some b =>
        rw [hbase] at h
        dsimp only at h
        cases hp : project_emissions_with_interventions b.params b.timeline_years
            (validate_interventions ivs st.currentYear) st.currentYear oracle with
        | error e =>
            rw [hp] at h
            have h2 : (Except.error e : Except ScenarioError Scenario) = .ok s := h
            cases h2
        | ok pr =>
            rw [hp] at h
            have h2 : (Except.ok (⟨nm, "intervention", b.params, b.timeline_years,
                validate_interventions ivs st.currentYear, pr⟩ : Scenario) :
                Except ScenarioError Scenario) = .ok s := h
            cases h2
            rfl

/-- Witness for `intervention_validation_invariant`: an intervention with
`annual_reduction = 5`, `one_time_reduction = -7` and `uncertainty = -2`
is clamped into range (to `1`, `0` and `0`), not rejected. -/
theorem intervention_validation_invariant_witness :
    0 ≤ (validateIntervention 2026
      ⟨none, none, none, none, some 5, some (-7), none, none, none, none,
        some (-2)⟩).annual_reduction ∧
    (validateIntervention 2026
      ⟨none, none, none, none, some 5, some (-7), none, none, none, none,
        some (-2)⟩).annual_reduction ≤ 1 ∧
    0 ≤ (validateIntervention 2026
      ⟨none, none, none, none, some 5, some (-7), none, none, none, none,
        some (-2)⟩).one_time_reduction ∧
    0 ≤ (validateIntervention 2026
      ⟨none, none, none, none, some 5, some (-7), none, none, none, none,
        some (-2)⟩).uncertainty ∧
    (validateIntervention 2026
      ⟨none, none, none, none, some 5, some (-7), none, none, none, none,
        some (-2)⟩).uncertainty ≤ 1 :=
  intervention_validation_invariant.1
    [⟨none, none, none, none, some 5, some (-7), none, none, none, none, some (-2)⟩]
    2026 _ (by simp [validate_interventions])

end CarbonIntel.Scen

namespace CarbonIntel.Anom

/-- Characterisation of the `anomalous_records` list built by
`detect_anomalies`: a record for index `i` with the detecting methods as
`detected_by`. -/
theorem mem_detect_records_iff (n : ℕ) (c : ℕ → Bool) (d : ℕ → List String)
    (r : AnomalousRecord) :
    r ∈ (List.range n).filterMap
        (fun i => if c i then some ⟨i, d i⟩ else none) ↔
      r.index < n ∧ c r.index = true ∧ r.detected_by = d r.index := by
  rw [List.mem_filterMap]
  constructor
  · rintro ⟨i, hi, hsome⟩
    rw [List.mem_range] at hi
    by_cases hc : c i
    · rw [if_pos hc] at hsome
      cases hsome
      exact ⟨hi, hc, rfl⟩
    · rw [if_neg hc] at hsome
      cases hsome
  · rintro ⟨hlt, hc, hd⟩
    refine ⟨r.index, List.mem_range.mpr hlt, ?_⟩
    rw [if_pos hc, ← hd]

/-- The combined-record membership of `detect_anomalies`: an index appears
among the anomalous records iff some method in the `results` dict flags
it. -/
theorem detect_mem_iff (models : AnomalyModels) (features : Features) (n : ℕ)
    (i : ℕ) (hi : i < n) :
    (∃ r ∈ (detect_anomalies models features n).anomalous_records, r.index = i) ↔
      ∃ mv ∈ methodVerdicts models features, mv.2.getD i false = true := by
  unfold detect_anomalies
  dsimp only
  by_cases hE : (methodVerdicts models features).isEmpty
  · rw [if_pos hE]
    rw [List.isEmpty_iff] at hE
    simp [hE]
  · rw [if_neg hE]
    dsimp only
    constructor
    · rintro ⟨r, hr, rfl⟩
      have h := (mem_detect_records_iff n _ _ r).mp hr
      rw [List.any_eq_true] at h
      obtain ⟨mv, hmv, hflag⟩ := h.2.1
      exact ⟨mv, hmv, hflag⟩
    · rintro ⟨mv, hmv, hflag⟩
      refine ⟨⟨i, ((methodVerdicts models features).filter
        (fun mv => mv.2.getD i false)).map (·.1)⟩, ?_, rfl⟩
      rw [mem_detect_records_iff]
      exact ⟨hi, List.any_eq_true.mpr ⟨mv, hmv, hflag⟩, rfl⟩

/-- Every anomalous record's `detected_by` names exactly the flagging
methods, and is non-empty. -/
theorem detect_records_detected_by (models : AnomalyModels) (features : Features)
    (n : ℕ) (r : AnomalousRecord)
    (hr : r ∈ (detect_anomalies models features n).anomalous_records) :
    r.detected_by = ((methodVerdicts models features).filter
        (fun mv => mv.2.getD r.index false)).map (·.1) ∧
      r.detected_by ≠ [] := by
  unfold detect_anomalies at hr
  dsimp only at hr
  by_cases hE : (methodVerdicts models features).isEmpty
  · rw [if_pos hE] at hr
    cases hr
  · rw [if_neg hE] at hr
    dsimp only at hr
    have h := (mem_detect_records_iff n _ _ r).mp hr
    refine ⟨h.2.2, ?_⟩
    rw [h.2.2]
    rw [List.any_eq_true] at h
    obtain ⟨mv, hmv, hflag⟩ := h.2.1
    intro hnil
    rw [List.map_eq_nil_iff] at hnil
    have : mv ∈ (methodVerdicts models features).filter
        (fun mv => mv.2.getD r.index false) :=
      List.mem_filter.mpr ⟨hmv, hflag⟩
    rw [hnil] at this
    cases this

/-- Claim C5.  In every `detect_anomalies` result, a record appears in
`anomalous_records` iff at least one detection method (of the `results`
dict the code assembles) flagged it, and its `detected_by` list contains
exactly the flagging methods — hence `detected_by` is non-empty for every
listed record. -/
theorem anomaly_verdict_invariant (models : AnomalyModels) (features : Features)
    (n : ℕ) :
    (∀ i : ℕ, i < n →
      ((∃ r ∈ (detect_anomalies models features n).anomalous_records, r.index = i) ↔
        ∃ mv ∈ methodVerdicts models features, mv.2.getD i false = true)) ∧
    (∀ r ∈ (detect_anomalies models features n).anomalous_records,
      r.detected_by = ((methodVerdicts models features).filter
          (fun mv => mv.2.getD r.index false)).map (·.1) ∧
        r.detected_by ≠ []) :=
  ⟨fun i hi => detect_mem_iff models features n i hi,
   fun r hr => detect_records_detected_by models features n r hr⟩

/-- Witness for `anomaly_verdict_invariant`: a two-record data set where
the (abstracted) isolation forest flags record 1. -/
theorem anomaly_verdict_invariant_witness :
    (∃ r ∈ (detect_anomalies
        (train_all_detectors [("emissions", [0, 100])] [(1, 0), (1, 100)]
          (fun _ => [false, true]))
        [("emissions", [0, 100])] 2).anomalous_records, r.index = 1) ↔
      ∃ mv ∈ methodVerdicts
          (train_all_detectors [("emissions", [0, 100])] [(1, 0), (1, 100)]
            (fun _ => [false, true]))
          [("emissions", [0, 100])], mv.2.getD 1 false = true :=
  (anomaly_verdict_invariant
    (train_all_detectors [("emissions", [0, 100])] [(1, 0), (1, 100)]
      (fun _ => [false, true]))
    [("emissions", [0, 100])] 2).1 1 (by norm_num)

end CarbonIntel.Anom

namespace CarbonIntel.Anom

/-- Claim C4 — counterexample.  `detect_anomalies` does NOT union all
three detectors' verdicts: it never applies the time-series detector to
new data (its `results` dict only ever has `isolation_forest` and
`statistical` entries, anomaly_detection.py lines 264-308).  On the new
data `[10, 10, 10, 10, 10, 16]` (all in calendar month 1), record 5 is a
seasonal anomaly under the time-series detector's own rule
(`|16 − 11| > 2·std`, with monthly mean `11` and variance `6`:
`25 > 24`), while the trained statistical thresholds
(IQR fences `[-2000, 2000]` from the wide training column, z-score `3`
against the new data's own spread) and an isolation forest that reports
all records normal flag nothing — so `detect_anomalies` returns NO
anomalous records even though one of "the three detectors" flags
record 5. -/
theorem detect_misses_time_series_flag_counterexample :
    (detect_anomalies
      (train_all_detectors [("emissions", [-1000, -500, 0, 500, 1000])]
        [(1, 10), (1, 10), (1, 10), (1, 10), (1, 10), (1, 16)]
        (fun _ => [false, false, false, false, false, false]))
      [("emissions", [10, 10, 10, 10, 10, 16])] 6).anomalous_records = [] ∧
    (time_series_combined_anomalies
      [(1, 10), (1, 10), (1, 10), (1, 10), (1, 10), (1, 16)]).getD 5 false = true := by
  constructor
  · have hth : train_statistical_detector [("emissions", [-1000, -500, 0, 500, 1000])] =
        [("emissions", ⟨3, -2000, 2000⟩)] := by
      norm_num [train_statistical_detector, colThresholds, quantileLin, sortAscQ,
        insertSortedQ, Rat.floor, Rat.den_ofNat, Rat.num_ofNat, Int.toNat]
    have hstat : stat_detect [("emissions", (⟨3, -2000, 2000⟩ : ColThresholds))]
        [("emissions", [10, 10, 10, 10, 10, 16])] =
        some [false, false, false, false, false, false] := by
      norm_num [stat_detect, statColumnVerdict, zFlag, anyAcross, sampleVar?, qmean,
        List.lookup, List.range_succ, List.singleton]
      exact fun h => Option.noConfusion h
    have hmv : methodVerdicts
        (train_all_detectors [("emissions", [-1000, -500, 0, 500, 1000])]
          [(1, 10), (1, 10), (1, 10), (1, 10), (1, 10), (1, 16)]
          (fun _ => [false, false, false, false, false, false]))
        [("emissions", [10, 10, 10, 10, 10, 16])] =
        [("isolation_forest", [false, false, false, false, false, false]),
         ("statistical", [false, false, false, false, false, false])] := by
      simp only [methodVerdicts, train_all_detectors, hth, Option.bind]
      rw [hstat]
      rfl
    unfold detect_anomalies
    rw [hmv]
    norm_num [List.range_succ]
  · norm_num [time_series_combined_anomalies, rollingMean, rollingVar, rollingTrend,
      rollingWindow, lsqSlope, monthGroup, sampleVar?, qmean,
      List.range_succ, List.singleton]

/-- Claim C4 — amended.  `detect_anomalies` reuses the isolation forest's
fitted model/scaler and the statistical detector's trained thresholds
(the z-score standardisation, however, recomputes mean/std on the new
data — see `statColumnVerdict`), and it never consults the time-series
detector: (1) the detection result is entirely independent of the
time-series training data, and (2) a record is anomalous iff the
isolation forest or the statistical detector flags it. -/
theorem detect_ignores_time_series_detector :
    (∀ (trainF : Features) (ts1 ts2 : List (ℕ × ℚ)) (iso : Features → List Bool)
        (newF : Features) (n : ℕ),
      detect_anomalies (train_all_detectors trainF ts1 iso) newF n =
        detect_anomalies (train_all_detectors trainF ts2 iso) newF n) ∧
    (∀ (trainF : Features) (ts : List (ℕ × ℚ)) (iso : Features → List Bool)
        (newF : Features) (n i : ℕ), i < n →
      ((∃ r ∈ (detect_anomalies (train_all_detectors trainF ts iso) newF n).anomalous_records,
          r.index = i) ↔
        ((iso newF).getD i false = true ∨
          ∃ v, stat_detect (train_statistical_detector trainF) newF = some v ∧
            v.getD i false = true))) := by
  constructor
  · intro trainF ts1 ts2 iso newF n
    rfl
  · intro trainF ts iso newF n i hi
    rw [detect_mem_iff _ _ _ _ hi]
    cases hs : stat_detect (train_statistical_detector trainF) newF with
    | none => simp [methodVerdicts, train_all_detectors, Option.bind, hs]
    | some v => simp [methodVerdicts, train_all_detectors, Option.bind, hs]

/-- Witness for `detect_ignores_time_series_detector` at a two-record
data set. -/
theorem detect_ignores_time_series_detector_witness :
    (∃ r ∈ (detect_anomalies
        (train_all_detectors [("emissions", [0, 100])] [(1, 0), (1, 100)]
          (fun _ => [false, true]))
        [("emissions", [0, 100])] 2).anomalous_records, r.index = 1) ↔
      (((fun (_ : Features) => [false, true]) [("emissions", [0, 100])]).getD 1 false = true ∨
        ∃ v, stat_detect (train_statistical_detector [("emissions", [0, 100])])
            [("emissions", [0, 100])] = some v ∧ v.getD 1 false = true) :=
  detect_ignores_time_series_detector.2 [("emissions", [0, 100])] [(1, 0), (1, 100)]
    (fun _ => [false, true]) [("emissions", [0, 100])] 2 1 (by norm_num)

end CarbonIntel.Anom

namespace CarbonIntel.Fore

/-- Claim C7 — counterexample.  `train_models` performs no minimum-length
check of any kind: a three-point series (far shorter than twice either
seasonal period, `2·7 = 14`) is passed straight to the candidate
trainers, and with one succeeding candidate the training run SUCCEEDS —
no `DataInsufficientError` is raised before fitting (no such error class
exists anywhere in the repository, and `TrainError` faithfully has no
such variant). -/
theorem train_models_no_length_check_counterexample :
    ([1, 2, 3] : List ℚ).length < 2 * 7 ∧
    train_models ⟨some [1, 2, 3]⟩ [("linear", fun _ => .ok ⟨5⟩)] =
      .ok ⟨[("linear", ⟨5⟩)], some "linear", some 5⟩ := by
  constructor
  · norm_num
  · rfl

/-- Claim C7 — amended.  `train_models` validates nothing about the
series length: it fails only when the prepared data has no `emissions`
column (`ValueError`, line 236) or when every candidate trainer fails
(`ValueError("No models could be trained successfully")`, line 269);
otherwise — however short the series — candidate fitting proceeds and the
run succeeds. -/
theorem train_models_error_conditions :
    ∀ (data : PreparedData)
      (trainers : List (String × (List ℚ → Except String FitResult))),
      (∃ e, train_models data trainers = .error e) ↔
        (data.emissions = none ∨
          ∃ s, data.emissions = some s ∧ ∀ t ∈ trainers, ∃ msg, t.2 s = .error msg) := by
  intro data trainers
  cases hd : data.emissions with
  | none =>
      apply iff_of_true
      · exact ⟨.missingEmissionsColumn, by unfold train_models; rw [hd]⟩
      · exact Or.inl rfl
  | some s =>
      unfold train_models
      rw [hd]
      dsimp only
      by_cases hE : (trainers.filterMap fun t =>
          match t.2 s with
          | .ok r => some (t.1, r)
          | .error _ => none) = []
      · rw [hE]
        apply iff_of_true
        · exact ⟨.noModelsTrained, rfl⟩
        · refine Or.inr ⟨s, rfl, ?_⟩
          intro t ht
          have := List.filterMap_eq_nil_iff.mp hE t ht
          cases hts : t.2 s with
          | ok r => rw [hts] at this; cases this
          | error msg => exact ⟨msg, rfl⟩
      · apply iff_of_false
        · rintro ⟨e, he⟩
          rw [if_neg (by simpa [List.isEmpty_iff] using hE)] at he
          cases he
        · rintro (hnone | ⟨s2, hs2, hall⟩)
          · cases hnone
          · cases hs2
            apply hE
            apply List.filterMap_eq_nil_iff.mpr
            intro t ht
            obtain ⟨msg, hmsg⟩ := hall t ht
            rw [hmsg]

/-- Witness for `train_models_error_conditions`: with no `emissions`
column the run errors. -/
theorem train_models_error_conditions_witness :
    ∃ e, train_models ⟨none⟩
      ([] : List (String × (List ℚ → Except String FitResult))) = .error e :=
  (train_models_error_conditions ⟨none⟩ []).mpr (Or.inl rfl)

end CarbonIntel.Fore
